import Mathlib

/-!
Shallow embedding of `fetch_vcdist.py`, a script that downloads Visual C++
Redistributable installers and extracts their runtime DLLs.

The script is effectful: it reads and writes the filesystem, performs HTTP
requests and shells out to external extraction tools.  We model the
filesystem explicitly as a record of three observation functions (file
contents, directory existence, directory listings), and every operation of
the script returns the updated filesystem together with a trace of the
observable events it performed (network requests, external tool
invocations, printed messages).  Results of external tools (what an HTTP
body contains, which files 7-Zip or dark.exe produce) are supplied by a
`World` oracle, since the script treats those tools as black boxes.
Temporary directories created by `tempfile.mkdtemp` are modelled by a
fresh-name counter threaded through the extraction calls.  Exceptions are
modelled with `Except`.
-/

namespace VCRedist

/-- The filesystem state: file contents by path, directory existence by
path, and directory listings (entry names) by path.  Paths are plain
strings joined with a slash. -/
structure FS where
  files : String → Option String
  dirs : String → Bool
  listing : String → List String

/-- Write a file (models opening dest in binary write mode and writing the body). -/
def FS.setFile (fs : FS) (p c : String) : FS :=
  { fs with files := fun q => if q = p then some c else fs.files q }

/-- Mark a path as an existing directory, leaving its listing alone. -/
def FS.setDirTrue (fs : FS) (p : String) : FS :=
  { fs with dirs := fun q => if q = p then true else fs.dirs q }

/-- Replace the recorded listing of a directory. -/
def FS.setListing (fs : FS) (p : String) (l : List String) : FS :=
  { fs with listing := fun q => if q = p then l else fs.listing q }

/-- Create a fresh, empty directory (models `os.makedirs` / `mkdtemp`). -/
def FS.mkdirFresh (fs : FS) (p : String) : FS :=
  (fs.setDirTrue p).setListing p []

/-- Observable events of a run. -/
inductive Event where
  | netRequest (uri : String)
  | wixExtractAll (zipPath destDir : String)
  | sevenZipUnpackTools (archive destDir : String)
  | sevenZipExtractCabs (exe archive tmpDir : String)
  | darkExtract (darkExe bundle tmpDir : String)
  | expandCab (cab destDir : String)
  | printed (msg : String)
deriving DecidableEq, Repr

/-- Network requests (`requests.get`). -/
def isNetworkEvent : Event → Bool
  | Event.netRequest _ => true
  | _ => false

/-- Extraction invocations: every event that unpacks an archive, whether via
an external tool (`7zr`, `7za`, `dark.exe`, `expand.exe`) or in-process
(`zipfile.ZipFile.extractall`). -/
def isExtractionEvent : Event → Bool
  | Event.netRequest _ => false
  | Event.printed _ => false
  | _ => true

/-- The 7-Zip CAB extraction used by the legacy (< 11) path. -/
def isLegacyExtractEvent : Event → Bool
  | Event.sevenZipExtractCabs _ _ _ => true
  | _ => false

/-- The dark.exe bundle extraction used by the bundle (>= 11) path. -/
def isBundleExtractEvent : Event → Bool
  | Event.darkExtract _ _ _ => true
  | _ => false

/-- An `expand.exe` invocation (`extract_cab`). -/
def isExpandEvent : Event → Bool
  | Event.expandCab _ _ => true
  | _ => false

/-- Whether a trace took the legacy 7-Zip extraction path. -/
def usedLegacy (tr : List Event) : Bool := tr.any isLegacyExtractEvent

/-- Whether a trace took the WiX bundle extraction path. -/
def usedBundle (tr : List Event) : Bool := tr.any isBundleExtractEvent

/-- Oracle describing the behaviour of the outside world: HTTP response
bodies, and the files produced by the external extraction tools. -/
structure World where
  body : String → String
  sevenZipCabs : String → List String
  darkPackages : String → List String
  expandResult : String → List String

/-- Path join, `os.path.join` with a slash separator. -/
def pjoin (a b : String) : String := a ++ "/" ++ b

/-- Characters after the last slash (helper for `basename`). -/
def basenameAux : List Char → List Char → List Char
  | [], acc => acc
  | c :: rest, acc =>
    if c = '/' then basenameAux rest [] else basenameAux rest (acc ++ [c])

/-- Model of `os.path.basename` on the slash-separated URLs the script
feeds it: the text after the last slash. -/
def basename (p : String) : String := String.mk (basenameAux p.data [])

/-- Characters before the first '.' (helper for `major`;
models `version.partition('.')[0]`). -/
def beforeDot : List Char → List Char
  | [] => []
  | c :: rest => if c = '.' then [] else c :: beforeDot rest

/-- Decimal value of a digit string (model of Python `int` on the numeric
version prefixes in the catalog). -/
def natOfDigits : List Char → Nat → Nat
  | [], acc => acc
  | c :: rest, acc => natOfDigits rest (acc * 10 + (c.toNat - 48))

/-- Model of `int(version.partition('.')[0])`: the numeric major-version
prefix of a dotted version string. -/
def major (version : String) : Nat := natOfDigits (beforeDot version.data) 0

/-- Fresh temporary directory names, modelling `tempfile.mkdtemp`. -/
def tmpName (n : Nat) : String := "/tmp/extract" ++ toString n

/-- Model of `download_file(uri, dest)`: if the destination file already
exists return it unchanged, otherwise perform a GET request and write the
response body to the destination. -/
def download_file (w : World) (fs : FS) (uri dest : String) :
    FS × List Event × String :=
  if (fs.files dest).isSome then (fs, [], dest)
  else (fs.setFile dest (w.body uri), [Event.netRequest uri], dest)

/-- The URL of the one active catalog entry. -/
def vcUri : String :=
  "https://download.visualstudio.microsoft.com/download/pr/285b28c7-3cf9-47fb-9be8-01cf5323a8df/8F9FB1B3CFE6E5092CF1225ECD6659DAB7CE50B8BF935CB79BFEDE1F3C895240/VC_redist.x64.exe"

/-- The `runtime_downloads` catalog: the (version, URL) pairs that are not
commented out in the source.  Only one entry is active. -/
def runtime_downloads : List (String × String) :=
  [("14.42.34438.0", vcUri)]

/-- The loop body of `fetch_runtimes`, generalised over the catalog list:
skip entries with major version < 14 unless `includeOld`, otherwise
download the installer to `<version>_<basename uri>` in the download
directory and yield `(version, destination)`. -/
def fetchRuntimesAux (w : World) (catalog : List (String × String))
    (fs : FS) (dd : String) (includeOld : Bool) :
    FS × List Event × List (String × String) :=
  match catalog with
  | [] => (fs, [], [])
  | (ver, uri) :: rest =>
    if includeOld = false ∧ major ver < 14 then
      fetchRuntimesAux w rest fs dd includeOld
    else
      let r1 := download_file w fs uri (pjoin dd (ver ++ "_" ++ basename uri))
      let r2 := fetchRuntimesAux w rest r1.1 dd includeOld
      (r2.1, r1.2.1 ++ r2.2.1, (ver, r1.2.2) :: r2.2.2)

/-- Model of `fetch_runtimes` over the actual catalog. -/
def fetch_runtimes (w : World) (fs : FS) (dd : String) (includeOld : Bool) :
    FS × List Event × List (String × String) :=
  fetchRuntimesAux w runtime_downloads fs dd includeOld

/-- The `if not os.path.isfile(p): download_file(uri, p)` pattern of
`fetch_7zip` and `fetch_wix`. -/
def ensureDownloaded (w : World) (fs : FS) (uri dest : String) : FS × List Event :=
  if (fs.files dest).isSome then (fs, [])
  else
    let r := download_file w fs uri dest
    (r.1, r.2.1)

/-- Model of `fetch_7zip(download_directory)`: ensure `__7zr.exe` and the
`7z2301-extra.7z` archive are downloaded, unpack the archive into `_7z`
if that directory does not exist yet, and return the path of `7za.exe`
inside it. -/
def fetch_7zip (w : World) (fs : FS) (dd : String) : FS × List Event × String :=
  let exePath := pjoin dd "__7zr.exe"
  let r1 := ensureDownloaded w fs "https://7-zip.org/a/7zr.exe" exePath
  let toolArchive := pjoin dd "7z2301-extra.7z"
  let r2 := ensureDownloaded w r1.1 "https://7-zip.org/a/7z2301-extra.7z" toolArchive
  let toolsPath := pjoin dd "_7z"
  let r3 :=
    if r2.1.dirs toolsPath = true then (r2.1, ([] : List Event))
    else (r2.1.mkdirFresh toolsPath, [Event.sevenZipUnpackTools toolArchive toolsPath])
  (r3.1, r1.2 ++ r2.2 ++ r3.2, pjoin toolsPath "7za.exe")

/-- Model of `extract_old_installer(seven_zip_exe, self_extracting_archive)`:
make a fresh temporary directory, run 7-Zip to extract the `*.cab` members
into it, and fail if nothing was extracted. -/
def extract_old_installer (w : World) (fs : FS) (ctr : Nat)
    (sevenZipExe selfExtractingArchive : String) :
    FS × Nat × List Event × Except String String :=
  let tmp := tmpName ctr
  let fs1 := (fs.mkdirFresh tmp).setListing tmp (w.sevenZipCabs selfExtractingArchive)
  if fs1.listing tmp = [] then
    (fs1, ctr + 1, [Event.sevenZipExtractCabs sevenZipExe selfExtractingArchive tmp],
      Except.error ("Failed to extract any cabinet file from " ++
        selfExtractingArchive ++ "."))
  else
    (fs1, ctr + 1, [Event.sevenZipExtractCabs sevenZipExe selfExtractingArchive tmp],
      Except.ok tmp)

/-- The WiX binaries download URL. -/
def wixUri : String :=
  "https://github.com/wixtoolset/wix3/releases/download/wix3111rtm/wix311-binaries.zip"

/-- Model of `fetch_wix(download_directory)`: ensure `__wix.zip` is
downloaded, then always re-extract it into the `__wix` directory and
return that directory. -/
def fetch_wix (w : World) (fs : FS) (dd : String) : FS × List Event × String :=
  let zipPath := pjoin dd "__wix.zip"
  let r1 := ensureDownloaded w fs wixUri zipPath
  let wixDir := pjoin dd "__wix"
  (r1.1.setDirTrue wixDir, r1.2 ++ [Event.wixExtractAll zipPath wixDir], wixDir)

/-- Model of `extract_burn_bundle(wix_tool_location, bundle_exe)`: run
`dark.exe -x` into a fresh temporary directory; the oracle says which
package entries appear under `AttachedContainer/packages`. -/
def extract_burn_bundle (w : World) (fs : FS) (ctr : Nat)
    (wixToolLocation bundleExe : String) :
    FS × Nat × List Event × String :=
  let darkExe := pjoin wixToolLocation "dark.exe"
  let tmp := tmpName ctr
  let pkgs := pjoin (pjoin tmp "AttachedContainer") "packages"
  let fs1 := ((fs.mkdirFresh tmp).setDirTrue pkgs).setListing pkgs
    (w.darkPackages bundleExe)
  (fs1, ctr + 1, [Event.darkExtract darkExe bundleExe tmp], tmp)

/-- Whether a name ends in the given suffix (model of `str.endswith`). -/
def nameEndsWith (name suffix : String) : Bool :=
  suffix.data.isSuffixOf name.data

/-- The loop of `find_cabs`: for each listed name ending in `_amd64`,
yield `<base>/<name>/cab1.cab`. -/
def findCabsAux (basePath : String) : List String → List String
  | [] => []
  | n :: rest =>
    if nameEndsWith n "_amd64" then
      pjoin (pjoin basePath n) "cab1.cab" :: findCabsAux basePath rest
    else findCabsAux basePath rest

/-- Model of `find_cabs(directory)`: list `AttachedContainer/packages`
inside the unpacked bundle and yield `cab1.cab` under every entry whose
name ends in `_amd64`. -/
def find_cabs (fs : FS) (directory : String) : List String :=
  let basePath := pjoin (pjoin directory "AttachedContainer") "packages"
  findCabsAux basePath (fs.listing basePath)

/-- Modelled from the spec for the C7 refinement comparison only: the
claim says `find_cabs` yields `cab1.cab` for each SUBDIRECTORY of
`AttachedContainer/packages` whose name ends in `_amd64`, so this variant
additionally requires the entry to be a directory. -/
def find_cabs_claimed (fs : FS) (directory : String) : List String :=
  let basePath := pjoin (pjoin directory "AttachedContainer") "packages"
  ((fs.listing basePath).filter
    (fun n => nameEndsWith n "_amd64" && fs.dirs (pjoin basePath n))).map
    (fun n => pjoin (pjoin basePath n) "cab1.cab")

/-- Model of `extract_cab(cab_source, destination)`: run `expand.exe`,
which adds the expanded members to the destination directory. -/
def extract_cab (w : World) (fs : FS) (cabSource destination : String) :
    FS × List Event :=
  (fs.setListing destination (fs.listing destination ++ w.expandResult cabSource),
    [Event.expandCab cabSource destination])

/-- Expand each CAB of a list into the destination directory (the
`for cab in ...: extract_cab(...)` loops of `fetch_all`). -/
def extractCabsInto (w : World) (fs : FS) (cabs : List String) (dest : String) :
    FS × List Event :=
  match cabs with
  | [] => (fs, [])
  | c :: rest =>
    let r1 := extract_cab w fs c dest
    let r2 := extractCabsInto w r1.1 rest dest
    (r2.1, r1.2 ++ r2.2)

/-- The loop body of `fetch_all` for one yielded `(version, installer)`
pair: ensure the `vcruntime_<version>` output directory exists, skip if it
is non-empty, skip major version 10 with a message, extract via 7-Zip for
major version < 11, and otherwise via the WiX bundle path. -/
def processEntry (w : World) (fs : FS) (ctr : Nat)
    (base dd wixLoc ver installer : String) :
    FS × Nat × List Event × Except String Unit :=
  let outdir := pjoin base ("vcruntime_" ++ ver)
  let fs1 := if fs.dirs outdir = true then fs else fs.mkdirFresh outdir
  if fs1.listing outdir ≠ [] then
    (fs1, ctr, [Event.printed ("Already have " ++ ver)], Except.ok ())
  else if major ver = 10 then
    (fs1, ctr, [Event.printed "Cannot extract Visual C++ 2010 runtime. Skipping."],
      Except.ok ())
  else if major ver < 11 then
    let r7 := fetch_7zip w fs1 dd
    let re := extract_old_installer w r7.1 ctr r7.2.2 installer
    match re.2.2.2 with
    | Except.error e => (re.1, re.2.1, r7.2.1 ++ re.2.2.1, Except.error e)
    | Except.ok cabDir =>
      let rc := extractCabsInto w re.1
        ((re.1.listing cabDir).map (fun c => pjoin cabDir c)) outdir
      (rc.1, re.2.1, r7.2.1 ++ re.2.2.1 ++ rc.2, Except.ok ())
  else
    let rb := extract_burn_bundle w fs1 ctr wixLoc installer
    let rc := extractCabsInto w rb.1 (find_cabs rb.1 rb.2.2.2) outdir
    (rc.1, rb.2.1, rb.2.2.1 ++ rc.2, Except.ok ())

/-- The main loop of `fetch_all` over the catalog.  `fetch_runtimes` is a
generator in the source, so the per-entry filter and download are
interleaved with the loop body; an exception aborts the remaining
entries. -/
def fetchLoop (w : World) (catalog : List (String × String)) (fs : FS)
    (ctr : Nat) (base dd wixLoc : String) (includeOld : Bool) :
    FS × Nat × List Event × Except String Unit :=
  match catalog with
  | [] => (fs, ctr, [], Except.ok ())
  | (ver, uri) :: rest =>
    if includeOld = false ∧ major ver < 14 then
      fetchLoop w rest fs ctr base dd wixLoc includeOld
    else
      let r1 := download_file w fs uri (pjoin dd (ver ++ "_" ++ basename uri))
      let r2 := processEntry w r1.1 ctr base dd wixLoc ver r1.2.2
      match r2.2.2.2 with
      | Except.error e => (r2.1, r2.2.1, r1.2.1 ++ r2.2.2.1, Except.error e)
      | Except.ok _ =>
        let r3 := fetchLoop w rest r2.1 r2.2.1 base dd wixLoc includeOld
        (r3.1, r3.2.1, r1.2.1 ++ r2.2.2.1 ++ r3.2.2.1, r3.2.2.2)

/-- Model of `fetch_all(base_directory, include_old_versions)`: fail if
`<base>/Downloads` is not a directory, otherwise fetch the WiX toolset and
run the catalog loop. -/
def fetch_all (w : World) (fs : FS) (base : String) (includeOld : Bool) :
    FS × List Event × Except String Unit :=
  let dd := pjoin base "Downloads"
  if fs.dirs dd = true then
    let r1 := fetch_wix w fs dd
    let r2 := fetchLoop w runtime_downloads r1.1 0 base dd r1.2.2 includeOld
    (r2.1, r1.2.1 ++ r2.2.2.1, r2.2.2.2)
  else
    (fs, [], Except.error ("The download directory does not exist: " ++ dd))

/-- A trivial world oracle used for concrete witnesses: the network returns
empty bodies and every external tool produces nothing. -/
def wNull : World where
  body := fun _ => ""
  sevenZipCabs := fun _ => []
  darkPackages := fun _ => []
  expandResult := fun _ => []

/-- The completely empty filesystem. -/
def fsEmpty : FS where
  files := fun _ => none
  dirs := fun _ => false
  listing := fun _ => []

/-- A filesystem in which the single catalog entry is fully downloaded and
its output directory is non-empty, but the cached WiX zip is absent. -/
def fsDoneNoWix : FS where
  files := fun p =>
    if p = "base/Downloads/14.42.34438.0_VC_redist.x64.exe" then some "installer"
    else none
  dirs := fun p =>
    p = "base" || p = "base/Downloads" || p = "base/vcruntime_14.42.34438.0"
  listing := fun p =>
    if p = "base/vcruntime_14.42.34438.0" then ["msvcp140.dll"] else []

/-- Like `fsDoneNoWix` but with the cached WiX zip also present, so a
re-run is fully cached. -/
def fsDone : FS where
  files := fun p =>
    if p = "base/Downloads/14.42.34438.0_VC_redist.x64.exe" then some "installer"
    else if p = "base/Downloads/__wix.zip" then some "wixzip"
    else none
  dirs := fun p =>
    p = "base" || p = "base/Downloads" || p = "base/vcruntime_14.42.34438.0"
  listing := fun p =>
    if p = "base/vcruntime_14.42.34438.0" then ["msvcp140.dll"] else []

/-- A filesystem holding one already-downloaded file, for the downloader
cache-hit witness. -/
def fsOneFile : FS where
  files := fun p => if p = "dl/cached.exe" then some "original-bytes" else none
  dirs := fun _ => false
  listing := fun _ => []

/-- An unpacked-bundle filesystem whose `AttachedContainer/packages`
directory holds a plain FILE (not a subdirectory) named with an `_amd64`
suffix. -/
def fsAmdFile : FS where
  files := fun p => if p = "r/AttachedContainer/packages/pkg_amd64" then some "" else none
  dirs := fun p =>
    p = "r" || p = "r/AttachedContainer" || p = "r/AttachedContainer/packages"
  listing := fun p =>
    if p = "r/AttachedContainer/packages" then ["pkg_amd64"] else []

/-! ### Helper lemmas -/

/-- The skip message of the already-extracted check can never coincide with
the Visual C++ 2010 skip message, whatever the version string. -/
lemma already_ne_cannot (ver : String) :
    "Already have " ++ ver ≠ "Cannot extract Visual C++ 2010 runtime. Skipping." := by
  intro h
  have h2 := congrArg String.data h
  rw [String.data_append] at h2
  have h3 := congrArg List.head? h2
  simp at h3

/-- After the `os.makedirs` guard of `fetch_all`, an output directory that
was absent or empty has an empty listing. -/
lemma ensure_listing_empty (fs : FS) (outdir : String)
    (h : fs.dirs outdir = false ∨ fs.listing outdir = []) :
    (if fs.dirs outdir = true then fs else fs.mkdirFresh outdir).listing outdir = [] := by
  rcases h with h | h
  · simp [h, FS.mkdirFresh, FS.setListing, FS.setDirTrue]
  · by_cases hd : fs.dirs outdir = true <;>
      simp [hd, h, FS.mkdirFresh, FS.setListing, FS.setDirTrue]

/-- The ensured output directory exists afterwards. -/
lemma ensure_dirs_true (fs : FS) (outdir : String) :
    (if fs.dirs outdir = true then fs else fs.mkdirFresh outdir).dirs outdir = true := by
  by_cases hd : fs.dirs outdir = true <;>
    simp [hd, FS.mkdirFresh, FS.setListing, FS.setDirTrue]

/-- `download_file` emits at most a network-request event. -/
lemma download_file_any_false (w : World) (fs : FS) (uri dest : String)
    (p : Event → Bool) (h : ∀ u, p (Event.netRequest u) = false) :
    ((download_file w fs uri dest).2.1).any p = false := by
  by_cases hc : (fs.files dest).isSome <;> simp [download_file, hc, h]

/-- `ensureDownloaded` emits at most a network-request event. -/
lemma ensureDownloaded_any_false (w : World) (fs : FS) (uri dest : String)
    (p : Event → Bool) (h : ∀ u, p (Event.netRequest u) = false) :
    ((ensureDownloaded w fs uri dest).2).any p = false := by
  by_cases hc : (fs.files dest).isSome <;> simp [ensureDownloaded, download_file, hc, h]

/-- `ensureDownloaded` does not change any directory listing. -/
lemma ensureDownloaded_listing (w : World) (fs : FS) (uri dest : String) :
    (ensureDownloaded w fs uri dest).1.listing = fs.listing := by
  by_cases hc : (fs.files dest).isSome <;>
    simp [ensureDownloaded, download_file, hc, FS.setFile]

/-- `ensureDownloaded` does not change directory existence. -/
lemma ensureDownloaded_dirs (w : World) (fs : FS) (uri dest : String) :
    (ensureDownloaded w fs uri dest).1.dirs = fs.dirs := by
  by_cases hc : (fs.files dest).isSome <;>
    simp [ensureDownloaded, download_file, hc, FS.setFile]

/-- After `ensureDownloaded` the destination file exists. -/
lemma ensureDownloaded_files (w : World) (fs : FS) (uri dest : String) :
    ((ensureDownloaded w fs uri dest).1.files dest).isSome = true := by
  by_cases hc : (fs.files dest).isSome <;>
    simp [ensureDownloaded, download_file, hc, FS.setFile]

/-- `fetch_7zip` emits only network-request and tools-unpack events. -/
lemma fetch_7zip_any_false (w : World) (fs : FS) (dd : String)
    (p : Event → Bool) (h1 : ∀ u, p (Event.netRequest u) = false)
    (h2 : ∀ a d, p (Event.sevenZipUnpackTools a d) = false) :
    ((fetch_7zip w fs dd).2.1).any p = false := by
  have e1 := ensureDownloaded_any_false w fs "https://7-zip.org/a/7zr.exe"
    (pjoin dd "__7zr.exe") p h1
  have e2 := ensureDownloaded_any_false w
    (ensureDownloaded w fs "https://7-zip.org/a/7zr.exe" (pjoin dd "__7zr.exe")).1
    "https://7-zip.org/a/7z2301-extra.7z" (pjoin dd "7z2301-extra.7z") p h1
  simp only [fetch_7zip]
  split <;> simp [List.any_append, e1, e2, h2]

/-- `fetch_wix` emits at most a network request plus the zip extraction. -/
lemma fetch_wix_any_false (w : World) (fs : FS) (dd : String)
    (p : Event → Bool) (h1 : ∀ u, p (Event.netRequest u) = false)
    (h2 : ∀ z d, p (Event.wixExtractAll z d) = false) :
    ((fetch_wix w fs dd).2.1).any p = false := by
  have e1 := ensureDownloaded_any_false w fs wixUri (pjoin dd "__wix.zip") p h1
  simp [fetch_wix, List.any_append, e1, h2]

/-- `extractCabsInto` emits only `expand.exe` events. -/
lemma extractCabsInto_any_false (w : World) (fs : FS) (cabs : List String)
    (dest : String) (p : Event → Bool)
    (h : ∀ c d, p (Event.expandCab c d) = false) :
    ((extractCabsInto w fs cabs dest).2).any p = false := by
  induction cabs generalizing fs with
  | nil => simp [extractCabsInto]
  | cons c rest ih => simp [extractCabsInto, extract_cab, List.any_append, h, ih]

/-- `fetch_7zip` leaves an empty listing empty (it only writes files and
creates the fresh `_7z` directory). -/
lemma fetch_7zip_listing_empty (w : World) (fs : FS) (dd x : String)
    (h : fs.listing x = []) : (fetch_7zip w fs dd).1.listing x = [] := by
  simp only [fetch_7zip]
  split <;>
    simp [ensureDownloaded_listing, FS.mkdirFresh, FS.setListing, FS.setDirTrue, h]

/-! ### Filesystem growth

Every operation of the script only adds files and directories; nothing is
ever deleted.  `FSle a b` says every file of `a` still exists in `b` and
every directory of `a` still exists in `b`. -/

/-- Filesystem growth order. -/
def FSle (a b : FS) : Prop :=
  (∀ x, (a.files x).isSome = true → (b.files x).isSome = true) ∧
  (∀ x, a.dirs x = true → b.dirs x = true)

lemma FSle.rfl (a : FS) : FSle a a := ⟨fun _ h => h, fun _ h => h⟩

lemma FSle.comp {a b c : FS} (h1 : FSle a b) (h2 : FSle b c) : FSle a c :=
  ⟨fun x h => h2.1 x (h1.1 x h), fun x h => h2.2 x (h1.2 x h)⟩

lemma setFile_le (fs : FS) (p c : String) : FSle fs (fs.setFile p c) := by
  refine ⟨fun x h => ?_, fun x h => h⟩
  simp only [FS.setFile]
  split <;> simp_all

lemma setDirTrue_le (fs : FS) (p : String) : FSle fs (fs.setDirTrue p) := by
  refine ⟨fun x h => h, fun x h => ?_⟩
  simp only [FS.setDirTrue]
  split <;> simp_all

lemma setListing_le (fs : FS) (p : String) (l : List String) :
    FSle fs (fs.setListing p l) := ⟨fun _ h => h, fun _ h => h⟩

lemma mkdirFresh_le (fs : FS) (p : String) : FSle fs (fs.mkdirFresh p) :=
  FSle.comp (setDirTrue_le fs p) (setListing_le (fs.setDirTrue p) p [])

lemma download_file_le (w : World) (fs : FS) (uri dest : String) :
    FSle fs (download_file w fs uri dest).1 := by
  unfold download_file
  by_cases hc : (fs.files dest).isSome = true
  · rw [if_pos hc]; exact FSle.rfl fs
  · rw [if_neg hc]; exact setFile_le fs dest (w.body uri)

/-- After `download_file` the destination file exists. -/
lemma download_file_ensures (w : World) (fs : FS) (uri dest : String) :
    (((download_file w fs uri dest).1).files dest).isSome = true := by
  by_cases hc : (fs.files dest).isSome = true <;>
    simp [download_file, hc, FS.setFile]

lemma ensureDownloaded_le (w : World) (fs : FS) (uri dest : String) :
    FSle fs (ensureDownloaded w fs uri dest).1 := by
  unfold ensureDownloaded
  by_cases hc : (fs.files dest).isSome = true
  · rw [if_pos hc]; exact FSle.rfl fs
  · rw [if_neg hc]; exact download_file_le w fs uri dest

lemma fetch_7zip_le (w : World) (fs : FS) (dd : String) :
    FSle fs (fetch_7zip w fs dd).1 := by
  simp only [fetch_7zip]
  have h1 := ensureDownloaded_le w fs "https://7-zip.org/a/7zr.exe" (pjoin dd "__7zr.exe")
  have h2 := ensureDownloaded_le w
    (ensureDownloaded w fs "https://7-zip.org/a/7zr.exe" (pjoin dd "__7zr.exe")).1
    "https://7-zip.org/a/7z2301-extra.7z" (pjoin dd "7z2301-extra.7z")
  refine FSle.comp (FSle.comp h1 h2) ?_
  split
  · exact FSle.rfl _
  · exact mkdirFresh_le _ _

lemma fetch_wix_le (w : World) (fs : FS) (dd : String) :
    FSle fs (fetch_wix w fs dd).1 := by
  simp only [fetch_wix]
  exact FSle.comp (ensureDownloaded_le w fs wixUri (pjoin dd "__wix.zip"))
    (setDirTrue_le _ _)

lemma extract_old_installer_le (w : World) (fs : FS) (ctr : Nat)
    (exe arc : String) : FSle fs (extract_old_installer w fs ctr exe arc).1 := by
  simp only [extract_old_installer]
  split <;>
    exact FSle.comp (mkdirFresh_le fs (tmpName ctr)) (setListing_le _ _ _)

lemma extract_burn_bundle_le (w : World) (fs : FS) (ctr : Nat)
    (wixLoc bundle : String) : FSle fs (extract_burn_bundle w fs ctr wixLoc bundle).1 := by
  simp only [extract_burn_bundle]
  exact FSle.comp (mkdirFresh_le fs (tmpName ctr))
    (FSle.comp (setDirTrue_le _ _) (setListing_le _ _ _))

lemma extract_cab_le (w : World) (fs : FS) (cab dest : String) :
    FSle fs (extract_cab w fs cab dest).1 :=
  setListing_le fs dest _

lemma extractCabsInto_le (w : World) (fs : FS) (cabs : List String)
    (dest : String) : FSle fs (extractCabsInto w fs cabs dest).1 := by
  induction cabs generalizing fs with
  | nil => exact FSle.rfl fs
  | cons c rest ih =>
    exact FSle.comp (extract_cab_le w fs c dest) (ih _)

lemma processEntry_le (w : World) (fs : FS) (ctr : Nat)
    (base dd wixLoc ver installer : String) :
    FSle fs (processEntry w fs ctr base dd wixLoc ver installer).1 := by
  simp only [processEntry]
  have hstart : FSle fs (if fs.dirs (pjoin base ("vcruntime_" ++ ver)) = true
      then fs else fs.mkdirFresh (pjoin base ("vcruntime_" ++ ver))) := by
    split
    · exact FSle.rfl fs
    · exact mkdirFresh_le _ _
  generalize (if fs.dirs (pjoin base ("vcruntime_" ++ ver)) = true
      then fs else fs.mkdirFresh (pjoin base ("vcruntime_" ++ ver))) = fs1 at hstart ⊢
  split
  · exact hstart
  · split
    · exact hstart
    · split
      · split
        · exact FSle.comp hstart (FSle.comp (fetch_7zip_le w fs1 dd)
            (extract_old_installer_le w _ ctr _ installer))
        · exact FSle.comp hstart (FSle.comp (fetch_7zip_le w fs1 dd)
            (FSle.comp (extract_old_installer_le w _ ctr _ installer)
              (extractCabsInto_le w _ _ _)))
      · exact FSle.comp hstart (FSle.comp (extract_burn_bundle_le w fs1 ctr wixLoc installer)
          (extractCabsInto_le w _ _ _))

/-- The output directory exists after `processEntry`. -/
lemma processEntry_dirs_outdir (w : World) (fs : FS) (ctr : Nat)
    (base dd wixLoc ver installer : String) :
    (processEntry w fs ctr base dd wixLoc ver installer).1.dirs
      (pjoin base ("vcruntime_" ++ ver)) = true := by
  simp only [processEntry]
  have hstart := ensure_dirs_true fs (pjoin base ("vcruntime_" ++ ver))
  generalize (if fs.dirs (pjoin base ("vcruntime_" ++ ver)) = true
      then fs else fs.mkdirFresh (pjoin base ("vcruntime_" ++ ver))) = fs1 at hstart ⊢
  split
  · exact hstart
  · split
    · exact hstart
    · split
      · split
        · exact (FSle.comp (fetch_7zip_le w fs1 dd)
            (extract_old_installer_le w _ ctr _ installer)).2 _ hstart
        · exact (FSle.comp (fetch_7zip_le w fs1 dd)
            (FSle.comp (extract_old_installer_le w _ ctr _ installer)
              (extractCabsInto_le w _ _ _))).2 _ hstart
      · exact (FSle.comp (extract_burn_bundle_le w fs1 ctr wixLoc installer)
          (extractCabsInto_le w _ _ _)).2 _ hstart

/-- The events of `extract_old_installer` are exactly the single 7-Zip
invocation, whether or not it extracted anything. -/
lemma extract_old_installer_events (w : World) (fs : FS) (ctr : Nat)
    (exe arc : String) :
    (extract_old_installer w fs ctr exe arc).2.2.1 =
      [Event.sevenZipExtractCabs exe arc (tmpName ctr)] := by
  simp only [extract_old_installer]
  split <;> rfl

/-- When 7-Zip extracts nothing, `extract_old_installer` fails with the
descriptive error. -/
lemma extract_old_installer_fail (w : World) (fs : FS) (ctr : Nat)
    (exe arc : String) (hc : w.sevenZipCabs arc = []) :
    extract_old_installer w fs ctr exe arc =
      ((fs.mkdirFresh (tmpName ctr)).setListing (tmpName ctr) [], ctr + 1,
        [Event.sevenZipExtractCabs exe arc (tmpName ctr)],
        Except.error ("Failed to extract any cabinet file from " ++ arc ++ ".")) := by
  simp [extract_old_installer, hc, FS.setListing, FS.mkdirFresh, FS.setDirTrue]

/-- With an absent-or-empty output directory and a major version below 11
other than 10, `processEntry` takes the legacy 7-Zip path and never the
bundle path. -/
lemma processEntry_legacy_case (w : World) (fs : FS) (ctr : Nat)
    (base dd wixLoc ver installer : String)
    (h : fs.dirs (pjoin base ("vcruntime_" ++ ver)) = false ∨
      fs.listing (pjoin base ("vcruntime_" ++ ver)) = [])
    (h10 : ¬ major ver = 10) (h11 : major ver < 11) :
    usedLegacy ((processEntry w fs ctr base dd wixLoc ver installer).2.2.1) = true ∧
    usedBundle ((processEntry w fs ctr base dd wixLoc ver installer).2.2.1) = false := by
  have hl := ensure_listing_empty fs (pjoin base ("vcruntime_" ++ ver)) h
  simp only [processEntry]
  generalize (if fs.dirs (pjoin base ("vcruntime_" ++ ver)) = true
      then fs else fs.mkdirFresh (pjoin base ("vcruntime_" ++ ver))) = fs1 at hl ⊢
  rw [if_neg (not_not_intro hl), if_neg h10, if_pos h11]
  have hev := extract_old_installer_events w (fetch_7zip w fs1 dd).1 ctr
    (fetch_7zip w fs1 dd).2.2 installer
  have h7L := fetch_7zip_any_false w fs1 dd isLegacyExtractEvent
    (fun _ => rfl) (fun _ _ => rfl)
  have h7B := fetch_7zip_any_false w fs1 dd isBundleExtractEvent
    (fun _ => rfl) (fun _ _ => rfl)
  split <;>
    simp [usedLegacy, usedBundle, List.any_append, hev, h7L, h7B,
      extractCabsInto_any_false, isLegacyExtractEvent, isBundleExtractEvent]

/-- With an absent-or-empty output directory and a major version of at
least 11, `processEntry` takes the WiX bundle path and never the legacy
path. -/
lemma processEntry_bundle_case (w : World) (fs : FS) (ctr : Nat)
    (base dd wixLoc ver installer : String)
    (h : fs.dirs (pjoin base ("vcruntime_" ++ ver)) = false ∨
      fs.listing (pjoin base ("vcruntime_" ++ ver)) = [])
    (h10 : ¬ major ver = 10) (h11 : ¬ major ver < 11) :
    usedBundle ((processEntry w fs ctr base dd wixLoc ver installer).2.2.1) = true ∧
    usedLegacy ((processEntry w fs ctr base dd wixLoc ver installer).2.2.1) = false := by
  have hl := ensure_listing_empty fs (pjoin base ("vcruntime_" ++ ver)) h
  simp only [processEntry]
  generalize (if fs.dirs (pjoin base ("vcruntime_" ++ ver)) = true
      then fs else fs.mkdirFresh (pjoin base ("vcruntime_" ++ ver))) = fs1 at hl ⊢
  rw [if_neg (not_not_intro hl), if_neg h10, if_neg h11]
  have hbev : (extract_burn_bundle w fs1 ctr wixLoc installer).2.2.1 =
      [Event.darkExtract (pjoin wixLoc "dark.exe") installer (tmpName ctr)] := rfl
  simp [usedLegacy, usedBundle, List.any_append, hbev,
    extractCabsInto_any_false, isLegacyExtractEvent, isBundleExtractEvent]

/-- Membership characterisation of the `find_cabs` loop. -/
lemma mem_findCabsAux (bp : String) (names : List String) (p : String) :
    p ∈ findCabsAux bp names ↔
      ∃ n, n ∈ names ∧ nameEndsWith n "_amd64" = true ∧
        p = pjoin (pjoin bp n) "cab1.cab" := by
  induction names with
  | nil => simp [findCabsAux]
  | cons n rest ih =>
    by_cases he : nameEndsWith n "_amd64" = true <;>
      simp [findCabsAux, he, ih]

/-- Running the `fetch_runtimes` loop with `include_old_versions=False` is
the same run as on the catalog with the old entries removed. -/
lemma fetchRuntimesAux_filter (w : World) (cat : List (String × String))
    (fs : FS) (dd : String) :
    fetchRuntimesAux w cat fs dd false =
      fetchRuntimesAux w (cat.filter (fun e => ! decide (major e.1 < 14))) fs dd true := by
  induction cat generalizing fs with
  | nil => rfl
  | cons e rest ih =>
    obtain ⟨ver, uri⟩ := e
    by_cases h : major ver < 14 <;>
      simp [fetchRuntimesAux, List.filter_cons, h, ih]

/-- With `include_old_versions=True` every catalog entry is yielded. -/
lemma fetchRuntimesAux_yield_all (w : World) (cat : List (String × String))
    (fs : FS) (dd : String) :
    ((fetchRuntimesAux w cat fs dd true).2.2).map Prod.fst = cat.map Prod.fst := by
  induction cat generalizing fs with
  | nil => rfl
  | cons e rest ih =>
    obtain ⟨ver, uri⟩ := e
    simp [fetchRuntimesAux, ih]

/-! ### Claims -/

/-- C1: for every catalog entry processed by `fetch_all` (not filtered out,
output directory empty or absent), the extraction strategy is determined
solely by the numeric major-version prefix of the version string: major 10
is skipped with the message `Cannot extract Visual C++ 2010 runtime.
Skipping.` and no extraction call is made; major < 11 (other than 10) goes
to the legacy 7-Zip path; major >= 11 goes to the WiX bundle path. -/
theorem claim_C1 (w : World) (fs : FS) (ctr : Nat)
    (base dd wixLoc ver installer : String)
    (h : fs.dirs (pjoin base ("vcruntime_" ++ ver)) = false ∨
      fs.listing (pjoin base ("vcruntime_" ++ ver)) = []) :
    (major ver = 10 →
      (processEntry w fs ctr base dd wixLoc ver installer).2.2.1 =
        [Event.printed "Cannot extract Visual C++ 2010 runtime. Skipping."]) ∧
    (¬ major ver = 10 → major ver < 11 →
      usedLegacy ((processEntry w fs ctr base dd wixLoc ver installer).2.2.1) = true ∧
      usedBundle ((processEntry w fs ctr base dd wixLoc ver installer).2.2.1) = false) ∧
    (11 ≤ major ver →
      usedBundle ((processEntry w fs ctr base dd wixLoc ver installer).2.2.1) = true ∧
      usedLegacy ((processEntry w fs ctr base dd wixLoc ver installer).2.2.1) = false) := by
  refine ⟨fun h10 => ?_,
    fun h10 h11 => processEntry_legacy_case w fs ctr base dd wixLoc ver installer h h10 h11,
    fun h11 => processEntry_bundle_case w fs ctr base dd wixLoc ver installer h
      (by omega) (by omega)⟩
  have hl := ensure_listing_empty fs (pjoin base ("vcruntime_" ++ ver)) h
  simp only [processEntry]
  generalize (if fs.dirs (pjoin base ("vcruntime_" ++ ver)) = true
      then fs else fs.mkdirFresh (pjoin base ("vcruntime_" ++ ver))) = fs1 at hl ⊢
  rw [if_neg (not_not_intro hl), if_pos h10]

/-- Witness for C1: version 9.0.30729.4148 with an absent output directory
routes to the legacy path and not the bundle path. -/
theorem claim_C1_witness :
    (fsEmpty.dirs (pjoin "b" ("vcruntime_" ++ "9.0.30729.4148")) = false ∨
      fsEmpty.listing (pjoin "b" ("vcruntime_" ++ "9.0.30729.4148")) = []) ∧
    (usedLegacy ((processEntry wNull fsEmpty 0 "b" "b/Downloads" "wl"
        "9.0.30729.4148" "inst.exe").2.2.1) = true ∧
      usedBundle ((processEntry wNull fsEmpty 0 "b" "b/Downloads" "wl"
        "9.0.30729.4148" "inst.exe").2.2.1) = false) :=
  ⟨Or.inl rfl,
    (claim_C1 wNull fsEmpty 0 "b" "b/Downloads" "wl" "9.0.30729.4148" "inst.exe"
      (Or.inl rfl)).2.1 (by decide) (by decide)⟩

/-- C3: with `include_old_versions=False` the `fetch_runtimes` loop is
exactly the run on the catalog without the major-version-below-14 entries
(so no such entry is ever downloaded or yielded), and with `True` every
catalog entry is considered and yielded. -/
theorem claim_C3 (w : World) (cat : List (String × String)) (fs : FS) (dd : String) :
    (fetchRuntimesAux w cat fs dd false =
      fetchRuntimesAux w (cat.filter (fun e => ! decide (major e.1 < 14))) fs dd true) ∧
    ((fetchRuntimesAux w cat fs dd true).2.2).map Prod.fst = cat.map Prod.fst ∧
    ((fetchRuntimesAux w cat fs dd false).2.2).map Prod.fst =
      (cat.filter (fun e => ! decide (major e.1 < 14))).map Prod.fst := by
  refine ⟨fetchRuntimesAux_filter w cat fs dd, fetchRuntimesAux_yield_all w cat fs dd, ?_⟩
  rw [fetchRuntimesAux_filter w cat fs dd, fetchRuntimesAux_yield_all]

/-- C4: when the destination file already exists, `download_file` returns
the destination immediately, performs no network request and leaves the
whole filesystem (in particular the file) unchanged. -/
theorem claim_C4 (w : World) (fs : FS) (uri dest : String)
    (h : (fs.files dest).isSome = true) :
    download_file w fs uri dest = (fs, [], dest) := by
  simp [download_file, h]

/-- Witness for C4 on a concrete cached file. -/
theorem claim_C4_witness :
    (fsOneFile.files "dl/cached.exe").isSome = true ∧
    download_file wNull fsOneFile "http://example.com/f.exe" "dl/cached.exe" =
      (fsOneFile, [], "dl/cached.exe") :=
  ⟨rfl, claim_C4 wNull fsOneFile "http://example.com/f.exe" "dl/cached.exe" rfl⟩

/-- C5: when the 7-Zip invocation extracts zero files, the legacy extractor
fails with the descriptive error naming the archive rather than returning;
in `fetch_all` this aborts the entry with that error, no `expand.exe` call
happens, and the output directory is left empty. -/
theorem claim_C5 (w : World) (fs fsx : FS) (ctr ctrx : Nat)
    (base dd wixLoc ver installer sevenZa : String)
    (h : fs.dirs (pjoin base ("vcruntime_" ++ ver)) = false ∨
      fs.listing (pjoin base ("vcruntime_" ++ ver)) = [])
    (h10 : ¬ major ver = 10) (h11 : major ver < 11)
    (hc : w.sevenZipCabs installer = []) :
    (extract_old_installer w fsx ctrx sevenZa installer).2.2.2 =
      Except.error ("Failed to extract any cabinet file from " ++ installer ++ ".") ∧
    (processEntry w fs ctr base dd wixLoc ver installer).2.2.2 =
      Except.error ("Failed to extract any cabinet file from " ++ installer ++ ".") ∧
    ((processEntry w fs ctr base dd wixLoc ver installer).2.2.1).any isExpandEvent
      = false ∧
    (processEntry w fs ctr base dd wixLoc ver installer).1.listing
      (pjoin base ("vcruntime_" ++ ver)) = [] := by
  refine ⟨by rw [extract_old_installer_fail w fsx ctrx sevenZa installer hc], ?_⟩
  have hl := ensure_listing_empty fs (pjoin base ("vcruntime_" ++ ver)) h
  simp only [processEntry]
  generalize (if fs.dirs (pjoin base ("vcruntime_" ++ ver)) = true
      then fs else fs.mkdirFresh (pjoin base ("vcruntime_" ++ ver))) = fs1 at hl ⊢
  rw [if_neg (not_not_intro hl), if_neg h10, if_pos h11]
  rw [extract_old_installer_fail w (fetch_7zip w fs1 dd).1 ctr
    (fetch_7zip w fs1 dd).2.2 installer hc]
  have h7e := fetch_7zip_any_false w fs1 dd isExpandEvent
    (fun _ => rfl) (fun _ _ => rfl)
  have h7l := fetch_7zip_listing_empty w fs1 dd
    (pjoin base ("vcruntime_" ++ ver)) hl
  refine ⟨rfl, ?_, ?_⟩
  · simp [List.any_append, h7e, isExpandEvent]
  · simp [FS.setListing, FS.mkdirFresh, FS.setDirTrue, h7l]

/-- Witness for C5 at version 9.0.30729.4148 with a 7-Zip run that
extracts nothing. -/
theorem claim_C5_witness :
    wNull.sevenZipCabs "inst.exe" = [] ∧
    (processEntry wNull fsEmpty 0 "b" "b/Downloads" "wl" "9.0.30729.4148"
        "inst.exe").2.2.2 =
      Except.error ("Failed to extract any cabinet file from " ++ "inst.exe" ++ ".") :=
  ⟨rfl, (claim_C5 wNull fsEmpty fsEmpty 0 0 "b" "b/Downloads" "wl" "9.0.30729.4148"
    "inst.exe" "7za.exe" (Or.inl rfl) (by decide) (by decide) rfl).2.1⟩

/-- C6: if `<base>/Downloads` is not a directory, `fetch_all` fails at once
with the error naming the download directory, with no events performed and
the filesystem unchanged. -/
theorem claim_C6 (w : World) (fs : FS) (base : String) (includeOld : Bool)
    (h : fs.dirs (pjoin base "Downloads") = false) :
    fetch_all w fs base includeOld =
      (fs, [], Except.error ("The download directory does not exist: " ++
        pjoin base "Downloads")) := by
  simp [fetch_all, h]

/-- Witness for C6 on the empty filesystem. -/
theorem claim_C6_witness :
    fsEmpty.dirs (pjoin "d" "Downloads") = false ∧
    fetch_all wNull fsEmpty "d" false =
      (fsEmpty, [], Except.error ("The download directory does not exist: " ++
        pjoin "d" "Downloads")) :=
  ⟨rfl, claim_C6 wNull fsEmpty "d" false rfl⟩

/-- C7 counterexample: `find_cabs` does not require the `_amd64` entry to
be a subdirectory.  On a bundle whose `AttachedContainer/packages` holds a
plain file named `pkg_amd64`, the code yields its `cab1.cab` path, while
the claimed subdirectories-only reading yields nothing. -/
theorem claim_C7_counterexample :
    find_cabs fsAmdFile "r" = ["r/AttachedContainer/packages/pkg_amd64/cab1.cab"] ∧
    fsAmdFile.dirs "r/AttachedContainer/packages/pkg_amd64" = false ∧
    find_cabs_claimed fsAmdFile "r" = [] := by
  decide

/-- C7 amended: `find_cabs` scans exactly `AttachedContainer/packages` and
yields precisely the `cab1.cab` path under every listed ENTRY (file or
subdirectory) whose name ends in `_amd64`, and nothing else. -/
theorem claim_C7 (fs : FS) (directory p : String) :
    p ∈ find_cabs fs directory ↔
      ∃ n, n ∈ fs.listing (pjoin (pjoin directory "AttachedContainer") "packages") ∧
        nameEndsWith n "_amd64" = true ∧
        p = pjoin (pjoin (pjoin (pjoin directory "AttachedContainer") "packages") n)
          "cab1.cab" := by
  simp only [find_cabs]
  exact mem_findCabsAux _ _ p

set_option maxRecDepth 1000000 in
/-- C2 counterexample: a state in which the single catalog entry is fully
downloaded and extracted, but the cached WiX zip is absent.  The re-run
still performs a network request (re-fetching the WiX zip) and an
extraction invocation (the unconditional `zipfile.extractall` of the WiX
toolset), so the claimed "zero network requests and zero extraction
invocations" fails. -/
theorem claim_C2_counterexample :
    ((fetch_all wNull fsDoneNoWix "base" false).2.1).filter isNetworkEvent ≠ [] ∧
    ((fetch_all wNull fsDoneNoWix "base" false).2.1).filter isExtractionEvent ≠ [] := by
  decide

/-- C2 amended: when every catalog entry is fully downloaded and extracted
AND the cached WiX zip is present, a re-run performs zero network requests,
and its only extraction invocation is the unconditional re-extraction of
the WiX toolset zip (`fetch_wix` always calls `extractall`). -/
theorem claim_C2 (w : World) (fs : FS) (base : String) (includeOld : Bool)
    (hdd : fs.dirs (pjoin base "Downloads") = true)
    (hwix : (fs.files (pjoin (pjoin base "Downloads") "__wix.zip")).isSome = true)
    (hinst : ∀ e ∈ runtime_downloads,
      (fs.files (pjoin (pjoin base "Downloads")
        (e.1 ++ "_" ++ basename e.2))).isSome = true)
    (hdir : ∀ e ∈ runtime_downloads,
      fs.dirs (pjoin base ("vcruntime_" ++ e.1)) = true)
    (hne : ∀ e ∈ runtime_downloads,
      fs.listing (pjoin base ("vcruntime_" ++ e.1)) ≠ []) :
    ((fetch_all w fs base includeOld).2.1).filter isNetworkEvent = [] ∧
    ((fetch_all w fs base includeOld).2.1).filter isExtractionEvent =
      [Event.wixExtractAll (pjoin (pjoin base "Downloads") "__wix.zip")
        (pjoin (pjoin base "Downloads") "__wix")] := by
  have h1 : (fs.files (pjoin (pjoin base "Downloads")
      ("14.42.34438.0" ++ "_" ++ basename vcUri))).isSome = true :=
    hinst ("14.42.34438.0", vcUri) (by simp [runtime_downloads])
  have h2 : fs.dirs (pjoin base ("vcruntime_" ++ "14.42.34438.0")) = true :=
    hdir ("14.42.34438.0", vcUri) (by simp [runtime_downloads])
  have h3 : fs.listing (pjoin base ("vcruntime_" ++ "14.42.34438.0")) ≠ [] :=
    hne ("14.42.34438.0", vcUri) (by simp [runtime_downloads])
  have hw : fetch_wix w fs (pjoin base "Downloads") =
      (fs.setDirTrue (pjoin (pjoin base "Downloads") "__wix"),
        [Event.wixExtractAll (pjoin (pjoin base "Downloads") "__wix.zip")
          (pjoin (pjoin base "Downloads") "__wix")],
        pjoin (pjoin base "Downloads") "__wix") := by
    simp only [fetch_wix, ensureDownloaded]
    rw [if_pos hwix]
    rfl
  have hmaj : ¬ (includeOld = false ∧ major "14.42.34438.0" < 14) := by
    intro hX
    exact absurd hX.2 (by decide)
  have hfiles1 : ((fs.setDirTrue (pjoin (pjoin base "Downloads") "__wix")).files
      (pjoin (pjoin base "Downloads")
        ("14.42.34438.0" ++ "_" ++ basename vcUri))).isSome = true := h1
  have hdl : download_file w (fs.setDirTrue (pjoin (pjoin base "Downloads") "__wix"))
      vcUri (pjoin (pjoin base "Downloads") ("14.42.34438.0" ++ "_" ++ basename vcUri)) =
      (fs.setDirTrue (pjoin (pjoin base "Downloads") "__wix"), [],
        pjoin (pjoin base "Downloads") ("14.42.34438.0" ++ "_" ++ basename vcUri)) := by
    unfold download_file
    rw [if_pos hfiles1]
  have hdirs1 : (fs.setDirTrue (pjoin (pjoin base "Downloads") "__wix")).dirs
      (pjoin base ("vcruntime_" ++ "14.42.34438.0")) = true := by
    simp only [FS.setDirTrue]
    split
    · rfl
    · exact h2
  have hlist1 : (fs.setDirTrue (pjoin (pjoin base "Downloads") "__wix")).listing
      (pjoin base ("vcruntime_" ++ "14.42.34438.0")) ≠ [] := h3
  have hpe : processEntry w (fs.setDirTrue (pjoin (pjoin base "Downloads") "__wix")) 0
      base (pjoin base "Downloads") (pjoin (pjoin base "Downloads") "__wix")
      "14.42.34438.0"
      (pjoin (pjoin base "Downloads") ("14.42.34438.0" ++ "_" ++ basename vcUri)) =
      (fs.setDirTrue (pjoin (pjoin base "Downloads") "__wix"), 0,
        [Event.printed ("Already have " ++ "14.42.34438.0")], Except.ok ()) := by
    simp only [processEntry]
    rw [if_pos hdirs1, if_pos hlist1]
  have hloop : fetchLoop w runtime_downloads
      (fs.setDirTrue (pjoin (pjoin base "Downloads") "__wix")) 0 base
      (pjoin base "Downloads") (pjoin (pjoin base "Downloads") "__wix") includeOld =
      (fs.setDirTrue (pjoin (pjoin base "Downloads") "__wix"), 0,
        [Event.printed ("Already have " ++ "14.42.34438.0")], Except.ok ()) := by
    simp only [runtime_downloads, fetchLoop]
    rw [if_neg hmaj]
    simp only [hdl, hpe, fetchLoop]
    rfl
  have hall : (fetch_all w fs base includeOld).2.1 =
      [Event.wixExtractAll (pjoin (pjoin base "Downloads") "__wix.zip")
        (pjoin (pjoin base "Downloads") "__wix"),
       Event.printed ("Already have " ++ "14.42.34438.0")] := by
    simp only [fetch_all]
    rw [if_pos hdd]
    simp only [hw, hloop]
    rfl
  rw [hall]
  simp [isNetworkEvent, isExtractionEvent]

set_option maxRecDepth 1000000 in
/-- Witness for the amended C2 on a concrete fully-cached state. -/
theorem claim_C2_witness :
    ((fetch_all wNull fsDone "base" false).2.1).filter isNetworkEvent = [] ∧
    ((fetch_all wNull fsDone "base" false).2.1).filter isExtractionEvent =
      [Event.wixExtractAll (pjoin (pjoin "base" "Downloads") "__wix.zip")
        (pjoin (pjoin "base" "Downloads") "__wix")] :=
  claim_C2 wNull fsDone "base" false (by decide) (by decide) (by decide)
    (by decide) (by decide)

/-- C8: an entry is skipped as already extracted, printing
`Already have <version>` and changing nothing, exactly when its
`vcruntime_<version>` output directory under the base directory exists and
is non-empty; an existing but empty directory does not count. -/
theorem claim_C8 (w : World) (fs : FS) (ctr : Nat)
    (base dd wixLoc ver installer : String) :
    processEntry w fs ctr base dd wixLoc ver installer =
      (fs, ctr, [Event.printed ("Already have " ++ ver)], Except.ok ()) ↔
    (fs.dirs (pjoin base ("vcruntime_" ++ ver)) = true ∧
      fs.listing (pjoin base ("vcruntime_" ++ ver)) ≠ []) := by
  constructor
  · intro h
    have h1 : (processEntry w fs ctr base dd wixLoc ver installer).1 = fs := by rw [h]
    have h2 : (processEntry w fs ctr base dd wixLoc ver installer).2.2.1 =
        [Event.printed ("Already have " ++ ver)] := by rw [h]
    by_cases hd : fs.dirs (pjoin base ("vcruntime_" ++ ver)) = true
    · by_cases hl : fs.listing (pjoin base ("vcruntime_" ++ ver)) = []
      · exfalso
        by_cases h10 : major ver = 10
        · have hP : (processEntry w fs ctr base dd wixLoc ver installer).2.2.1 =
              [Event.printed "Cannot extract Visual C++ 2010 runtime. Skipping."] := by
            simp only [processEntry]
            rw [if_pos hd, if_neg (not_not_intro hl), if_pos h10]
          rw [hP] at h2
          simp only [List.cons.injEq, Event.printed.injEq, and_true] at h2
          exact already_ne_cannot ver h2.symm
        · by_cases h11 : major ver < 11
          · have hu := (processEntry_legacy_case w fs ctr base dd wixLoc ver installer
              (Or.inr hl) h10 h11).1
            rw [h2] at hu
            simp [usedLegacy, isLegacyExtractEvent] at hu
          · have hu := (processEntry_bundle_case w fs ctr base dd wixLoc ver installer
              (Or.inr hl) h10 h11).1
            rw [h2] at hu
            simp [usedBundle, isBundleExtractEvent] at hu
      · exact ⟨hd, hl⟩
    · exfalso
      have hdd := processEntry_dirs_outdir w fs ctr base dd wixLoc ver installer
      rw [h1] at hdd
      exact hd hdd
  · rintro ⟨hd, hl⟩
    simp only [processEntry]
    rw [if_pos hd, if_pos hl]

/-- C9 counterexample: the unpacked 7-Zip tools are cached under `_7z`
(single underscore), not `__7z`: after running `fetch_7zip` on a fresh
download directory nothing exists at `__7z`, while the tools directory
`_7z` exists and the returned extractor path lies inside it. -/
theorem claim_C9_counterexample :
    (fetch_7zip wNull fsEmpty "dest/Downloads").2.2 = "dest/Downloads/_7z/7za.exe" ∧
    (fetch_7zip wNull fsEmpty "dest/Downloads").1.dirs "dest/Downloads/_7z" = true ∧
    (fetch_7zip wNull fsEmpty "dest/Downloads").1.dirs "dest/Downloads/__7z" = false ∧
    ((fetch_7zip wNull fsEmpty "dest/Downloads").1.files
      "dest/Downloads/__7zr.exe").isSome = true := by
  decide

/-- C9 amended: the cached tool paths under the download directory are
`__wix` for the WiX toolset, `_7z` (single underscore, not `__7z`) for the
unpacked 7-Zip tools, and `__7zr.exe` for the stand-alone extractor. -/
theorem claim_C9 (w : World) (fs : FS) (dd : String) :
    (fetch_wix w fs dd).2.2 = pjoin dd "__wix" ∧
    (fetch_wix w fs dd).1.dirs (pjoin dd "__wix") = true ∧
    (fetch_7zip w fs dd).2.2 = pjoin (pjoin dd "_7z") "7za.exe" ∧
    ((fetch_7zip w fs dd).1.files (pjoin dd "__7zr.exe")).isSome = true ∧
    (fetch_7zip w fs dd).1.dirs (pjoin dd "_7z") = true := by
  refine ⟨rfl, ?_, rfl, ?_, ?_⟩
  · simp [fetch_wix, FS.setDirTrue]
  · have ha := ensureDownloaded_files w fs "https://7-zip.org/a/7zr.exe"
      (pjoin dd "__7zr.exe")
    have hb := (ensureDownloaded_le w
      (ensureDownloaded w fs "https://7-zip.org/a/7zr.exe" (pjoin dd "__7zr.exe")).1
      "https://7-zip.org/a/7z2301-extra.7z" (pjoin dd "7z2301-extra.7z")).1 _ ha
    simp only [fetch_7zip]
    split
    · exact hb
    · simpa [FS.mkdirFresh, FS.setListing, FS.setFile, FS.setDirTrue] using hb
  · simp only [fetch_7zip]
    split
    · assumption
    · simp [FS.mkdirFresh, FS.setListing, FS.setDirTrue]

/-- C10: an entry passing the age filter has its installer downloaded to
`<version>_<URL basename>` in the download directory and its output
directory created before the already-extracted and version-10 checks, so
whatever the outcome (including both skips and extraction failure) the
installer file and the output directory are on disk afterwards. -/
theorem claim_C10 (w : World) (fs : FS) (ctr : Nat)
    (base dd wixLoc ver uri : String) (includeOld : Bool)
    (hfilter : ¬ (includeOld = false ∧ major ver < 14)) :
    (((fetchLoop w [(ver, uri)] fs ctr base dd wixLoc includeOld).1).files
      (pjoin dd (ver ++ "_" ++ basename uri))).isSome = true ∧
    ((fetchLoop w [(ver, uri)] fs ctr base dd wixLoc includeOld).1).dirs
      (pjoin base ("vcruntime_" ++ ver)) = true := by
  have hdl := download_file_ensures w fs uri (pjoin dd (ver ++ "_" ++ basename uri))
  have hpe := processEntry_le w
    (download_file w fs uri (pjoin dd (ver ++ "_" ++ basename uri))).1 ctr base dd
    wixLoc ver (download_file w fs uri (pjoin dd (ver ++ "_" ++ basename uri))).2.2
  have hpd := processEntry_dirs_outdir w
    (download_file w fs uri (pjoin dd (ver ++ "_" ++ basename uri))).1 ctr base dd
    wixLoc ver (download_file w fs uri (pjoin dd (ver ++ "_" ++ basename uri))).2.2
  simp only [fetchLoop]
  rw [if_neg hfilter]
  split
  · exact ⟨hpe.1 _ hdl, hpd⟩
  · exact ⟨hpe.1 _ hdl, hpd⟩

set_option maxRecDepth 100000 in
/-- Witness for C10: the catalog entry version 14.42.34438.0 on an empty
filesystem (output dir created, installer downloaded, even though the
bundle then extracts nothing). -/
theorem claim_C10_witness :
    (¬ ((false : Bool) = false ∧ major "14.42.34438.0" < 14)) ∧
    ((((fetchLoop wNull [("14.42.34438.0", "http://host/VC_redist.x64.exe")] fsEmpty 0
        "b" "b/Downloads" "wl" false).1).files
      (pjoin "b/Downloads" ("14.42.34438.0" ++ "_" ++
        basename "http://host/VC_redist.x64.exe"))).isSome = true ∧
    ((fetchLoop wNull [("14.42.34438.0", "http://host/VC_redist.x64.exe")] fsEmpty 0
        "b" "b/Downloads" "wl" false).1).dirs
      (pjoin "b" ("vcruntime_" ++ "14.42.34438.0")) = true) :=
  ⟨by decide,
    claim_C10 wNull fsEmpty 0 "b" "b/Downloads" "wl" "14.42.34438.0"
      "http://host/VC_redist.x64.exe" false (by decide)⟩

end VCRedist
